import Mathlib

/-!
# Verification of the payment lifecycle reconciliation engine

Shallow embedding of the reconciliation core of the lightweight crypto
payment processor:

* `src/src/services/blockchainService.js` — the chain-status resolver
  (`checkPaymentStatus` and the per-currency `check*Payment` functions),
  endpoint configuration, required-confirmation thresholds and the
  30-second Redis result cache;
* `src/unnamed/part_003` (payment monitor service) — `checkSinglePayment`,
  `updatePaymentStatus`, `triggerPaymentCallback`, `cleanupExpiredPayments`
  and `forceCheckPayment`;
* `src/unnamed/part_000` (Supabase schema) — the `payments` table, its
  status CHECK constraint and the SQL function `cleanup_expired_payments`;
* `src/src/routes/webhookRoutes.js` — the `/payment` and `/confirmation`
  webhook handlers;
* `src/unnamed/part_001` (payment routes) — the merchant cancel route.

Modelling decisions:

* JS decimal amounts are modelled as rationals (`ℚ`); raw on-chain units
  (satoshis, wei, lamports, token base units) as naturals divided by the
  currency's unit divisor, exactly as the JS code divides.
* The `payments` table is a partial map from the primary key to rows
  (`ℕ → Option Payment`); primary-key uniqueness is thereby built in.
* Provider HTTP calls are an oracle `ProviderEnv`: for a currency and the
  position in the order in which the service's code contacts endpoints,
  either a failure (`none`) or a response carrying the raw balance and a
  provider-reported confirmation figure.  The embedded code reads only the
  raw balance, exactly as the JS code reads only `funded_txo_sum` /
  `balance` / `result.value` and never a confirmation field.
* Wall-clock time is an abstract `ℕ` passed explicitly.
* The Supabase status CHECK constraint
  (`status IN ('pending','paid','expired','cancelled','failed')`) makes an
  UPDATE that writes any other status fail atomically; this is modelled by
  `toPayStatus` returning `none` for the resolver's `'error'` status.
* `supabase-js` serialises update payloads with `JSON.stringify`, which
  drops `undefined` fields, so an absent (`none`) optional field leaves
  the stored column unchanged.
-/

namespace CryptoPay

/-- The enumerated asset set: `payments.currency` CHECK constraint and the
`switch (currency)` in `blockchainService.checkPaymentStatus`. -/
inductive Currency
  | BTC | LTC | ETH | BNB | SOL | USDT | USDC
deriving DecidableEq, Repr

/-- The currency code string used in cache keys and snapshots. -/
def Currency.str : Currency → String
  | .BTC => "BTC" | .LTC => "LTC" | .ETH => "ETH" | .BNB => "BNB"
  | .SOL => "SOL" | .USDT => "USDT" | .USDC => "USDC"

/-- Embeds `this.requiredConfirmations` from the `BlockchainService`
constructor. -/
def requiredConfirmations : Currency → ℕ
  | .BTC => 3
  | .LTC => 6
  | .ETH => 12
  | .BNB => 15
  | .SOL => 1
  | .USDT => 12
  | .USDC => 12

/-- Embeds `this.endpoints` from the `BlockchainService` constructor: the configured
provider endpoints per currency, in the order they are declared. -/
def configuredEndpoints : Currency → List String
  | .BTC => ["https://blockstream.info/api",
             "https://api.blockcypher.com/v1/btc/main",
             "https://rpc.ankr.com/btc"]
  | .LTC => ["https://api.blockcypher.com/v1/ltc/main",
             "https://rpc.ankr.com/ltc"]
  | .ETH => ["https://rpc.ankr.com/eth",
             "https://mainnet.infura.io/v3",
             "https://eth-mainnet.g.alchemy.com/v2"]
  | .BNB => ["https://rpc.ankr.com/bsc",
             "https://bsc-dataseed.binance.org"]
  | .SOL => ["https://rpc.ankr.com/solana",
             "https://mainnet.helius-rpc.com",
             "https://api.mainnet-beta.solana.com"]
  | .USDT => ["https://rpc.ankr.com/eth"]
  | .USDC => ["https://rpc.ankr.com/eth"]

/-- Divisor converting a provider's raw integer units into the currency's
native decimal unit (satoshis, litoshis, wei, lamports, 6-decimal token
units — the literal divisors appearing in each `check*Payment`). -/
def unitDivisor : Currency → ℕ
  | .BTC => 100000000
  | .LTC => 100000000
  | .ETH => 10 ^ 18
  | .BNB => 10 ^ 18
  | .SOL => 1000000000
  | .USDT => 1000000
  | .USDC => 1000000

/-- One successful provider response.  `raw` is the balance figure the code
reads; `confs` stands for the confirmation data present in real provider
responses, which the service's code never reads. -/
structure ProviderResp where
  raw : ℕ
  confs : ℕ
deriving DecidableEq, Repr

/-- Oracle for provider calls: for a currency and the position in the order
in which the service's code contacts endpoints for that currency, the call
either fails (`none`: timeout, rate-limit, malformed response) or yields a
response. -/
def ProviderEnv : Type := Currency → ℕ → Option ProviderResp

/-- Status field of a `PaymentStatusSnapshot` as produced by
`blockchainService`: `'pending' | 'paid' | 'error'`. -/
inductive SnapStatus
  | pending | paid | error
deriving DecidableEq, Repr

/-- The JS string value of a snapshot status (the monitor compares these
strings). -/
def SnapStatus.str : SnapStatus → String
  | .pending => "pending"
  | .paid => "paid"
  | .error => "error"

/-- A point-in-time status read for one (currency, address) pair, as built
by `check*Payment` (success) or the catch block of `checkPaymentStatus`
(error).  Fields absent from a given JS object literal are `none`.
`tx_hash` is carried because the monitor reads `statusResult.tx_hash`;
no resolver snapshot ever sets it. -/
structure Snapshot where
  status : SnapStatus
  address : String
  currency : Currency
  balance : Option ℚ
  expectedAmount : Option ℚ
  confirmations : Option ℕ
  tx_hash : Option String
deriving DecidableEq, Repr

/-- The success snapshot each `check*Payment` returns: status and
confirmations are both computed from `balance >= expectedAmount`; the
confirmation count is the currency's threshold when the balance condition
holds and `0` otherwise. -/
def mkSuccessSnap (c : Currency) (address : String) (balance expectedAmount : ℚ) :
    Snapshot :=
  { status := if expectedAmount ≤ balance then .paid else .pending
    address := address
    currency := c
    balance := some balance
    expectedAmount := some expectedAmount
    confirmations := some (if expectedAmount ≤ balance then requiredConfirmations c else 0)
    tx_hash := none }

/-- The error object returned by the catch block of
`blockchainService.checkPaymentStatus`. -/
def errorSnapshot (c : Currency) (address : String) : Snapshot :=
  { status := .error
    address := address
    currency := c
    balance := none
    expectedAmount := none
    confirmations := none
    tx_hash := none }

/-- Embeds `checkBitcoinPayment`: loops over the two endpoints in its local
`endpoints` array (blockstream, then blockcypher — the third configured
BTC endpoint, ankr, is not in that array), returning on the first request
that does not throw; throws when both fail. -/
def checkBitcoinPayment (env : ProviderEnv) (address : String) (expectedAmount : ℚ) :
    Except String Snapshot :=
  match env .BTC 0 with
  | some r => .ok (mkSuccessSnap .BTC address ((r.raw : ℚ) / 100000000) expectedAmount)
  | none =>
    match env .BTC 1 with
    | some r => .ok (mkSuccessSnap .BTC address ((r.raw : ℚ) / 100000000) expectedAmount)
    | none => .error "All Bitcoin APIs failed"

/-- Embeds `checkLitecoinPayment`: a single blockcypher request; rethrows on
failure. -/
def checkLitecoinPayment (env : ProviderEnv) (address : String) (expectedAmount : ℚ) :
    Except String Snapshot :=
  match env .LTC 0 with
  | some r => .ok (mkSuccessSnap .LTC address ((r.raw : ℚ) / 100000000) expectedAmount)
  | none => .error "Litecoin API failed"

/-- Embeds `checkEthereumPayment`: a single web3 `getBalance` call against the ankr
endpoint; rethrows on failure. -/
def checkEthereumPayment (env : ProviderEnv) (address : String) (expectedAmount : ℚ) :
    Except String Snapshot :=
  match env .ETH 0 with
  | some r => .ok (mkSuccessSnap .ETH address ((r.raw : ℚ) / 10 ^ 18) expectedAmount)
  | none => .error "Ethereum API failed"

/-- Embeds `checkBNBPayment`: a single web3 `getBalance` call; rethrows on
failure. -/
def checkBNBPayment (env : ProviderEnv) (address : String) (expectedAmount : ℚ) :
    Except String Snapshot :=
  match env .BNB 0 with
  | some r => .ok (mkSuccessSnap .BNB address ((r.raw : ℚ) / 10 ^ 18) expectedAmount)
  | none => .error "BNB API failed"

/-- Embeds `checkSolanaPayment`: a single JSON-RPC `getBalance` call against the
ankr endpoint; rethrows on failure. -/
def checkSolanaPayment (env : ProviderEnv) (address : String) (expectedAmount : ℚ) :
    Except String Snapshot :=
  match env .SOL 0 with
  | some r => .ok (mkSuccessSnap .SOL address ((r.raw : ℚ) / 1000000000) expectedAmount)
  | none => .error "Solana API failed"

/-- Embeds `checkUSDTPayment`: a single ERC-20 `balanceOf` call; rethrows on
failure. -/
def checkUSDTPayment (env : ProviderEnv) (address : String) (expectedAmount : ℚ) :
    Except String Snapshot :=
  match env .USDT 0 with
  | some r => .ok (mkSuccessSnap .USDT address ((r.raw : ℚ) / 1000000) expectedAmount)
  | none => .error "USDT API failed"

/-- Embeds `checkUSDCPayment`: a single ERC-20 `balanceOf` call; rethrows on
failure. -/
def checkUSDCPayment (env : ProviderEnv) (address : String) (expectedAmount : ℚ) :
    Except String Snapshot :=
  match env .USDC 0 with
  | some r => .ok (mkSuccessSnap .USDC address ((r.raw : ℚ) / 1000000) expectedAmount)
  | none => .error "USDC API failed"

/-- The `switch (currency)` dispatch inside `checkPaymentStatus` (the
cache-independent part; every `Currency` value has a case, so the
`default: throw` branch is unreachable). -/
def resolveChain (env : ProviderEnv) (c : Currency) (address : String)
    (expectedAmount : ℚ) : Except String Snapshot :=
  match c with
  | .BTC => checkBitcoinPayment env address expectedAmount
  | .LTC => checkLitecoinPayment env address expectedAmount
  | .ETH => checkEthereumPayment env address expectedAmount
  | .BNB => checkBNBPayment env address expectedAmount
  | .SOL => checkSolanaPayment env address expectedAmount
  | .USDT => checkUSDTPayment env address expectedAmount
  | .USDC => checkUSDCPayment env address expectedAmount

/-! ## The 30-second Redis snapshot cache -/

/-- Redis key/value store restricted to the snapshot cache: entries carry
the absolute expiry instant set by `SETEX` (`now + ttl`); `GET` sees an
entry while `now < expiry`. -/
def Cache : Type := List (String × Snapshot × ℕ)

/-- Embeds `redis.get`: the entry for `key`, provided it has not expired. -/
def cacheGet (cache : Cache) (key : String) (now : ℕ) : Option Snapshot :=
  match cache.find? (fun e => e.1 = key && decide (now < e.2.2)) with
  | some e => some e.2.1
  | none => none

/-- Embeds `redis.setex key ttl`: replaces any entry for `key`, expiring at
`now + ttl`. -/
def cachePut (cache : Cache) (key : String) (snap : Snapshot) (expiry : ℕ) : Cache :=
  (key, snap, expiry) :: cache.filter (fun e => e.1 ≠ key)

/-- The cache key `payment:${currency}:${address}`. -/
def cacheKey (c : Currency) (address : String) : String :=
  "payment:" ++ c.str ++ ":" ++ address

/-- Embeds `blockchainService.checkPaymentStatus`: consult the cache first and
return a hit as-is; on a miss dispatch to the per-currency check, cache a
successful result for 30 seconds, and turn any thrown error into an
`'error'` snapshot (which is not cached, since the throw skips the
`setex`). -/
def checkPaymentStatus (env : ProviderEnv) (cache : Cache) (now : ℕ)
    (c : Currency) (address : String) (expectedAmount : ℚ) : Snapshot × Cache :=
  match cacheGet cache (cacheKey c address) now with
  | some s => (s, cache)
  | none =>
    match resolveChain env c address expectedAmount with
    | .ok snap => (snap, cachePut cache (cacheKey c address) snap (now + 30))
    | .error _ => (errorSnapshot c address, cache)

/-! ## The payment ledger and its writers -/

/-- The `payments.status` CHECK constraint: the five storable statuses. -/
inductive PayStatus
  | pending | paid | expired | cancelled | failed
deriving DecidableEq, Repr

/-- The JS string value of a stored payment status. -/
def PayStatus.str : PayStatus → String
  | .pending => "pending"
  | .paid => "paid"
  | .expired => "expired"
  | .cancelled => "cancelled"
  | .failed => "failed"

/-- A row of the `payments` table.  The primary key is the index of the
row in the ledger map; `created_at`/`updated_at`/merchant and order
metadata are omitted (no claim reads them). -/
structure Payment where
  currency : Currency
  amount : ℚ
  address : String
  status : PayStatus
  confirmations : ℕ
  tx_hash : Option String
  actual_amount : Option ℚ
  expires_at : ℕ
  paid_at : Option ℕ
  callback_url : Option String
deriving DecidableEq, Repr

/-- The `payments` table: a partial map from the UUID primary key
(abstracted to `ℕ`) to rows; primary-key uniqueness is built in. -/
def Ledger : Type := ℕ → Option Payment

/-- The observable state the claims quantify over: the ledger plus the
sequence of payment ids for which a callback POST has been attempted. -/
structure SysState where
  ledger : Ledger
  notifs : List ℕ

/-- A snapshot status as a storable payment status.  The CHECK constraint
on `payments.status` admits no `'error'` value, so an UPDATE carrying it
fails; `none` models that rejection. -/
def toPayStatus : SnapStatus → Option PayStatus
  | .pending => some .pending
  | .paid => some .paid
  | .error => none

/-- The row-level effect of the UPDATE issued by
`paymentMonitorService.updatePaymentStatus` (assuming the status passed
the CHECK constraint): sets `status`, always sets `confirmations`
(`statusResult.confirmations || 0`), sets `tx_hash` / `actual_amount` only
when the snapshot carries them (an `undefined` field is dropped from the
payload), and sets `paid_at` exactly when the new status is `'paid'`. -/
def monitorUpdateRow (snap : Snapshot) (s : PayStatus) (now : ℕ) (p : Payment) :
    Payment :=
  { p with
    status := s
    confirmations := snap.confirmations.getD 0
    tx_hash := if snap.tx_hash.isSome then snap.tx_hash else p.tx_hash
    actual_amount := if snap.balance.isSome then snap.balance else p.actual_amount
    paid_at := if s = PayStatus.paid then some now else p.paid_at }

/-- The UPDATE issued by `updatePaymentStatus`:
`supabase.from('payments').update(updateData).eq('id', payment.id)` — the
only filter is the payment id; the stored status is NOT re-checked.  The
whole statement fails (`none`) when the new status violates the CHECK
constraint. -/
def monitorWrite (snap : Snapshot) (now pid : ℕ) (L : Ledger) : Option Ledger :=
  match toPayStatus snap.status with
  | none => none
  | some s =>
    some (fun q => if q = pid then (L q).map (monitorUpdateRow snap s now) else L q)

/-- Embeds `paymentMonitorService.updatePaymentStatus` as a state step for the
payment row `p` (as previously read) under snapshot `snap`: issue the
UPDATE; on a database error log and return; otherwise log the event and,
when the new status is `'paid'` and the payment has a `callback_url`,
attempt the callback (`triggerPaymentCallback`; its own failure is caught
and changes nothing). -/
def updatePaymentStatus (st : SysState) (pid : ℕ) (p : Payment) (snap : Snapshot)
    (now : ℕ) : SysState :=
  match monitorWrite snap now pid st.ledger with
  | none => st
  | some L =>
    { ledger := L
      notifs :=
        if snap.status = SnapStatus.paid ∧ p.callback_url.isSome then
          st.notifs ++ [pid]
        else st.notifs }

/-- One payment's reconciliation check against a given snapshot, at the
granularity the service runs it: the payment row is read from the ledger
(`checkPendingPayments` selects `.eq('status','pending')`;
`forceCheckPayment` re-reads and returns early unless
`payment.status === 'pending'`), and `checkSinglePayment` updates the
database only when
`statusResult.status !== 'pending' && statusResult.status !== payment.status`
(string comparisons, as in the JS). -/
def reconcileCheck (st : SysState) (pid : ℕ) (snap : Snapshot) (now : ℕ) :
    SysState :=
  match st.ledger pid with
  | none => st
  | some p =>
    if p.status ≠ PayStatus.pending then st
    else if snap.status.str ≠ "pending" ∧ snap.status.str ≠ p.status.str then
      updatePaymentStatus st pid p snap now
    else st

/-- One row under the SQL function `cleanup_expired_payments`:
`UPDATE payments SET status='expired' WHERE status='pending' AND
expires_at < NOW()`. -/
def sweepRow (now : ℕ) (p : Payment) : Payment :=
  if p.status = PayStatus.pending ∧ p.expires_at < now then
    { p with status := PayStatus.expired }
  else p

/-- The expiry sweep (`paymentMonitorService.cleanupExpiredPayments`,
delegating to the SQL function via `supabase.rpc`): a pure ledger rewrite
— no provider oracle is consulted. -/
def cleanupExpiredPayments (st : SysState) (now : ℕ) : SysState :=
  { st with ledger := fun q => (st.ledger q).map (sweepRow now) }

/-- The merchant cancel route (`PATCH /:id/cancel` in the payment routes):
`update({status:'cancelled'}).eq('id',id).eq('status','pending')` — the
only writer that re-checks `pending` in the WHERE clause itself.  The
merchant-id filter is abstracted away. -/
def cancelPayment (st : SysState) (pid : ℕ) : SysState :=
  { st with
    ledger := fun q =>
      if q = pid then
        (st.ledger q).map (fun p =>
          if p.status = PayStatus.pending then { p with status := PayStatus.cancelled }
          else p)
      else st.ledger q }

/-- The row written by the `/webhook/payment` route: `tx_hash` and
`confirmations` use JS `||` semantics (`0` and `''` are falsy and fall
back to the stored value); on `'paid'`, `paid_at` is stamped and
`actual_amount` becomes `amount || payment.amount`. -/
def webhookRow (p : Payment) (newStatus : PayStatus) (tx : Option String)
    (amt : Option ℚ) (confs : Option ℕ) (now : ℕ) : Payment :=
  { p with
    status := newStatus
    tx_hash := match tx with
      | some t => if t = "" then p.tx_hash else some t
      | none => p.tx_hash
    confirmations := match confs with
      | some k => if k = 0 then p.confirmations else k
      | none => p.confirmations
    paid_at := if newStatus = PayStatus.paid then some now else p.paid_at
    actual_amount := if newStatus = PayStatus.paid then
        some (match amt with
          | some a => if a = 0 then p.amount else a
          | none => p.amount)
      else p.actual_amount }

/-- The `/webhook/payment` route: rejects a status outside
`['paid','expired','cancelled','failed']`, rejects when the stored status
is already final, then updates by id: `tx_hash: tx_hash || payment.tx_hash`,
`confirmations: confirmations || payment.confirmations` (JS `||`: `0` and
`''` fall back to the stored value), and on `'paid'` also `paid_at` and
`actual_amount: amount || payment.amount`; finally attempts the callback
iff `payment.callback_url && status === 'paid'`. -/
def webhookStatusUpdate (st : SysState) (pid : ℕ) (newStatus : PayStatus)
    (tx : Option String) (amt : Option ℚ) (confs : Option ℕ) (now : ℕ) :
    SysState :=
  if newStatus = PayStatus.pending then st
  else
    match st.ledger pid with
    | none => st
    | some p =>
      if p.status ≠ PayStatus.pending then st
      else
        { ledger := fun q =>
            if q = pid then some (webhookRow p newStatus tx amt confs now)
            else st.ledger q
          notifs :=
            if newStatus = PayStatus.paid ∧ p.callback_url.isSome then
              st.notifs ++ [pid]
            else st.notifs }

/-- The row written by the `/webhook/confirmation` route: a higher
confirmation count and, when non-falsy, a new `tx_hash`; `status` and
`paid_at` are untouched. -/
def confRow (p : Payment) (confs : ℕ) (tx : Option String) : Payment :=
  { p with
    confirmations := confs
    tx_hash := match tx with
      | some t => if t = "" then p.tx_hash else some t
      | none => p.tx_hash }

/-- The `/webhook/confirmation` route: rejects a missing or zero (falsy)
confirmation count, and updates `confirmations` and `tx_hash` by id only
when the reported count exceeds the stored one — no status guard. -/
def webhookConfirmation (st : SysState) (pid : ℕ) (confs : ℕ)
    (tx : Option String) : SysState :=
  if confs = 0 then st
  else
    match st.ledger pid with
    | none => st
    | some p =>
      if p.confirmations < confs then
        { st with
          ledger := fun q =>
            if q = pid then some (confRow p confs tx) else st.ledger q }
      else st

/-- The operations that write the `payments` table after creation:
a per-payment reconciliation check with a snapshot, the expiry sweep, a
merchant cancel, and the two webhook handlers. -/
inductive Op
  | tick (pid : ℕ) (snap : Snapshot)
  | sweep
  | cancel (pid : ℕ)
  | webhookStatus (pid : ℕ) (s : PayStatus) (tx : Option String)
      (amt : Option ℚ) (confs : Option ℕ)
  | webhookConf (pid : ℕ) (confs : ℕ) (tx : Option String)

/-- Apply one operation at instant `now`. -/
def applyOp (st : SysState) (now : ℕ) : Op → SysState
  | .tick pid snap => reconcileCheck st pid snap now
  | .sweep => cleanupExpiredPayments st now
  | .cancel pid => cancelPayment st pid
  | .webhookStatus pid s tx amt confs => webhookStatusUpdate st pid s tx amt confs now
  | .webhookConf pid confs tx => webhookConfirmation st pid confs tx

/-! ## Resolver-level lemmas -/

/-- Every successful resolver result is a `mkSuccessSnap` for the requested
currency, address and amount. -/
theorem resolveChain_ok_shape (env : ProviderEnv) (c : Currency) (a : String)
    (amt : ℚ) (snap : Snapshot) (h : resolveChain env c a amt = .ok snap) :
    ∃ bal : ℚ, snap = mkSuccessSnap c a bal amt := by
  cases c <;>
    simp only [resolveChain, checkBitcoinPayment, checkLitecoinPayment,
      checkEthereumPayment, checkBNBPayment, checkSolanaPayment,
      checkUSDTPayment, checkUSDCPayment] at h <;>
    (repeat' split at h) <;> cases h <;> exact ⟨_, rfl⟩

/-- A snapshot whose status is `'pending'` never updates the database:
`checkSinglePayment`'s condition `statusResult.status !== 'pending'`
fails. -/
theorem reconcileCheck_pending_snap (st : SysState) (pid : ℕ) (snap : Snapshot)
    (now : ℕ) (h : snap.status = SnapStatus.pending) :
    reconcileCheck st pid snap now = st := by
  unfold reconcileCheck
  cases hL : st.ledger pid with
  | none => rfl
  | some p =>
    simp only [h, SnapStatus.str]
    split
    · rfl
    · split
      · next hc => exact absurd rfl hc.1
      · rfl

/-- A snapshot whose status is `'error'` never changes the state: the
UPDATE carrying `status='error'` violates the CHECK constraint on
`payments.status`, so `updatePaymentStatus` logs the failure and returns
before the event log and the callback. -/
theorem reconcileCheck_error_snap (st : SysState) (pid : ℕ) (snap : Snapshot)
    (now : ℕ) (h : snap.status = SnapStatus.error) :
    reconcileCheck st pid snap now = st := by
  unfold reconcileCheck updatePaymentStatus monitorWrite
  cases hL : st.ledger pid with
  | none => rfl
  | some p =>
    simp only [h, SnapStatus.str, toPayStatus]
    split
    · rfl
    · split
      · rfl
      · rfl

/-- C1.  Confirmation gating: in a reconciliation check, a snapshot coming
out of the resolver whose confirmation count is below the payment
currency's required-confirmation threshold never transitions the payment —
the state is unchanged, so in particular a pending payment does not become
`paid`.  (This is stronger than the claim, which additionally assumes
`balance >= amount`: for every resolver-produced snapshot, a confirmation
count below the threshold forces `balance < amount` and status
`'pending'`, and a `'pending'` snapshot is never applied.) -/
theorem confirmation_gating (env : ProviderEnv) (c : Currency) (a : String)
    (amt : ℚ) (snap : Snapshot) (st : SysState) (pid now : ℕ)
    (hok : resolveChain env c a amt = .ok snap)
    (hconf : snap.confirmations.getD 0 < requiredConfirmations c) :
    reconcileCheck st pid snap now = st := by
  obtain ⟨bal, rfl⟩ := resolveChain_ok_shape env c a amt snap hok
  by_cases hle : amt ≤ bal
  · exfalso
    simp only [mkSuccessSnap, hle, if_true, Option.getD_some] at hconf
    exact lt_irrefl _ hconf
  · exact reconcileCheck_pending_snap _ _ _ _ (by simp [mkSuccessSnap, hle])

/-- Provider environment whose calls all succeed with a raw balance of
`50000000` (half of one BTC) and zero provider-side confirmations. -/
def envHalfCoin : ProviderEnv := fun _ _ => some ⟨50000000, 0⟩

/-- A concrete pending BTC payment over amount 1. -/
def samplePending : Payment :=
  { currency := .BTC
    amount := 1
    address := "addr"
    status := .pending
    confirmations := 0
    tx_hash := none
    actual_amount := none
    expires_at := 100
    paid_at := none
    callback_url := some "https://merchant.example/cb" }

/-- A one-row ledger holding `samplePending` at key 0. -/
def sampleLedger : Ledger := fun n => if n = 0 then some samplePending else none

/-- The system state over `sampleLedger` with no callbacks attempted. -/
def sampleState : SysState := { ledger := sampleLedger, notifs := [] }

/-- Witness for C1: a BTC snapshot for balance 0.5 against amount 1 has 0
confirmations (below the threshold 3), and the reconciliation check leaves
the concrete pending state untouched. -/
theorem confirmation_gating_witness :
    reconcileCheck sampleState 0
      (mkSuccessSnap Currency.BTC "addr" ((50000000 : ℚ) / 100000000) 1) 0 =
      sampleState :=
  confirmation_gating envHalfCoin Currency.BTC "addr" 1 _ sampleState 0 0
    (by norm_num [resolveChain, checkBitcoinPayment, envHalfCoin])
    (by norm_num [mkSuccessSnap, requiredConfirmations])

/-- Two option-valued provider responses with equal raw projections are
either both absent or both present with the same raw balance. -/
theorem map_raw_cases {x y : Option ProviderResp}
    (h : x.map ProviderResp.raw = y.map ProviderResp.raw) :
    (x = none ∧ y = none) ∨
      ∃ r r', x = some r ∧ y = some r' ∧ r.raw = r'.raw := by
  cases x with
  | none =>
    cases y with
    | none => exact Or.inl ⟨rfl, rfl⟩
    | some r' => simp at h
  | some r =>
    cases y with
    | none => simp at h
    | some r' =>
      right
      exact ⟨r, r', rfl, rfl, by simpa using h⟩

/-- The resolver reads only the raw balance of each provider response: two
environments agreeing on raw balances give identical resolver output. -/
theorem resolveChain_raw_only (env env' : ProviderEnv)
    (h : ∀ c i, (env c i).map ProviderResp.raw = (env' c i).map ProviderResp.raw)
    (c : Currency) (a : String) (amt : ℚ) :
    resolveChain env c a amt = resolveChain env' c a amt := by
  cases c <;>
    simp only [resolveChain, checkBitcoinPayment, checkLitecoinPayment,
      checkEthereumPayment, checkBNBPayment, checkSolanaPayment,
      checkUSDTPayment, checkUSDCPayment]
  case BTC =>
    rcases map_raw_cases (h .BTC 0) with ⟨hx, hy⟩ | ⟨r, r', hx, hy, hr⟩
    · rcases map_raw_cases (h .BTC 1) with ⟨hx1, hy1⟩ | ⟨s, s', hx1, hy1, hs⟩
      · simp [hx, hy, hx1, hy1]
      · simp [hx, hy, hx1, hy1, hs]
    · simp [hx, hy, hr]
  case LTC =>
    rcases map_raw_cases (h .LTC 0) with ⟨hx, hy⟩ | ⟨r, r', hx, hy, hr⟩
    · simp [hx, hy]
    · simp [hx, hy, hr]
  case ETH =>
    rcases map_raw_cases (h .ETH 0) with ⟨hx, hy⟩ | ⟨r, r', hx, hy, hr⟩
    · simp [hx, hy]
    · simp [hx, hy, hr]
  case BNB =>
    rcases map_raw_cases (h .BNB 0) with ⟨hx, hy⟩ | ⟨r, r', hx, hy, hr⟩
    · simp [hx, hy]
    · simp [hx, hy, hr]
  case SOL =>
    rcases map_raw_cases (h .SOL 0) with ⟨hx, hy⟩ | ⟨r, r', hx, hy, hr⟩
    · simp [hx, hy]
    · simp [hx, hy, hr]
  case USDT =>
    rcases map_raw_cases (h .USDT 0) with ⟨hx, hy⟩ | ⟨r, r', hx, hy, hr⟩
    · simp [hx, hy]
    · simp [hx, hy, hr]
  case USDC =>
    rcases map_raw_cases (h .USDC 0) with ⟨hx, hy⟩ | ⟨r, r', hx, hy, hr⟩
    · simp [hx, hy]
    · simp [hx, hy, hr]

/-- C10.  Every successful resolver snapshot carries a balance, and its
confirmation count is exactly the currency's configured threshold when
`balance >= expectedAmount` and `0` otherwise; moreover the resolver's
output depends only on the raw balance figures of the provider responses
— the provider-reported confirmation data is never consulted. -/
theorem resolver_confirmations_binary (env : ProviderEnv) (c : Currency)
    (a : String) (amt : ℚ) (snap : Snapshot)
    (hok : resolveChain env c a amt = .ok snap) :
    (∃ bal : ℚ, snap.balance = some bal ∧
      snap.confirmations =
        some (if amt ≤ bal then requiredConfirmations c else 0) ∧
      snap.status = (if amt ≤ bal then SnapStatus.paid else SnapStatus.pending)) ∧
    ∀ env' : ProviderEnv,
      (∀ c' i, (env c' i).map ProviderResp.raw = (env' c' i).map ProviderResp.raw) →
      resolveChain env' c a amt = .ok snap := by
  constructor
  · obtain ⟨bal, rfl⟩ := resolveChain_ok_shape env c a amt snap hok
    exact ⟨bal, rfl, rfl, rfl⟩
  · intro env' hraw
    rw [← resolveChain_raw_only env env' hraw c a amt]
    exact hok

/-- Witness for C10: concrete BTC lookup reporting half the expected
amount. -/
theorem resolver_confirmations_binary_witness :
    (∃ bal : ℚ,
      (mkSuccessSnap Currency.BTC "addr" (((50000000 : ℕ) : ℚ) / 100000000) 1).balance =
        some bal ∧
      (mkSuccessSnap Currency.BTC "addr" (((50000000 : ℕ) : ℚ) / 100000000) 1).confirmations =
        some (if (1 : ℚ) ≤ bal then requiredConfirmations Currency.BTC else 0) ∧
      (mkSuccessSnap Currency.BTC "addr" (((50000000 : ℕ) : ℚ) / 100000000) 1).status =
        (if (1 : ℚ) ≤ bal then SnapStatus.paid else SnapStatus.pending)) ∧
    ∀ env' : ProviderEnv,
      (∀ c' i, (envHalfCoin c' i).map ProviderResp.raw =
        (env' c' i).map ProviderResp.raw) →
      resolveChain env' Currency.BTC "addr" 1 =
        .ok (mkSuccessSnap Currency.BTC "addr" (((50000000 : ℕ) : ℚ) / 100000000) 1) :=
  resolver_confirmations_binary envHalfCoin Currency.BTC "addr" 1
    (mkSuccessSnap Currency.BTC "addr" (((50000000 : ℕ) : ℚ) / 100000000) 1) rfl

/-! ## Provider failover (C3) -/

/-- Provider environment where every call fails except the second
configured Litecoin endpoint (`https://rpc.ankr.com/ltc`), which reports
a raw balance of one whole LTC. -/
def ltcSecondOnly : ProviderEnv := fun c i =>
  if c = Currency.LTC ∧ i = 1 then some ⟨100000000, 6⟩ else none

/-- C3 counterexample: Litecoin has two configured providers, the first
fails and the second would succeed, yet the resolver
(`checkLitecoinPayment` consults only the first) returns an `error`
snapshot rather than the second provider's snapshot. -/
theorem ltc_failover_missing_cex :
    (configuredEndpoints Currency.LTC).length = 2 ∧
    ltcSecondOnly Currency.LTC 0 = none ∧
    (ltcSecondOnly Currency.LTC 1).isSome = true ∧
    (checkPaymentStatus ltcSecondOnly [] 0 Currency.LTC "addr" 1).1 =
      errorSnapshot Currency.LTC "addr" ∧
    (errorSnapshot Currency.LTC "addr").status = SnapStatus.error :=
  ⟨rfl, rfl, rfl, rfl, rfl⟩

/-- C3 amended.  Only the Bitcoin resolver fails over: it tries
blockstream then blockcypher (not the third configured endpoint) and
returns the first success, an error snapshot when both fail; every other
currency's resolver consults only its first provider, and that provider's
failure yields an error snapshot with no failover to the remaining
configured endpoints. -/
theorem provider_order_shape (env : ProviderEnv) (a : String) (amt : ℚ) :
    (∀ r, env Currency.BTC 0 = some r →
      resolveChain env Currency.BTC a amt =
        .ok (mkSuccessSnap Currency.BTC a ((r.raw : ℚ) / 100000000) amt)) ∧
    (∀ r, env Currency.BTC 0 = none → env Currency.BTC 1 = some r →
      resolveChain env Currency.BTC a amt =
        .ok (mkSuccessSnap Currency.BTC a ((r.raw : ℚ) / 100000000) amt)) ∧
    (env Currency.BTC 0 = none → env Currency.BTC 1 = none →
      ∀ cache now, cacheGet cache (cacheKey Currency.BTC a) now = none →
        (checkPaymentStatus env cache now Currency.BTC a amt).1 =
          errorSnapshot Currency.BTC a) ∧
    ∀ c : Currency, c ≠ Currency.BTC →
      (∀ r, env c 0 = some r →
        resolveChain env c a amt =
          .ok (mkSuccessSnap c a ((r.raw : ℚ) / (unitDivisor c : ℚ)) amt)) ∧
      (env c 0 = none →
        ∀ cache now, cacheGet cache (cacheKey c a) now = none →
          (checkPaymentStatus env cache now c a amt).1 = errorSnapshot c a) := by
  refine ⟨?_, ?_, ?_, ?_⟩
  · intro r h
    simp [resolveChain, checkBitcoinPayment, h]
  · intro r h0 h1
    simp [resolveChain, checkBitcoinPayment, h0, h1]
  · intro h0 h1 cache now hc
    simp [checkPaymentStatus, hc, resolveChain, checkBitcoinPayment, h0, h1]
  · intro c hc
    cases c
    case BTC => exact absurd rfl hc
    all_goals
      refine ⟨fun r h => ?_, fun h cache now hcg => ?_⟩
    · norm_num [resolveChain, checkLitecoinPayment, unitDivisor, h]
    · simp [checkPaymentStatus, hcg, resolveChain, checkLitecoinPayment, h]
    · norm_num [resolveChain, checkEthereumPayment, unitDivisor, h]
    · simp [checkPaymentStatus, hcg, resolveChain, checkEthereumPayment, h]
    · norm_num [resolveChain, checkBNBPayment, unitDivisor, h]
    · simp [checkPaymentStatus, hcg, resolveChain, checkBNBPayment, h]
    · norm_num [resolveChain, checkSolanaPayment, unitDivisor, h]
    · simp [checkPaymentStatus, hcg, resolveChain, checkSolanaPayment, h]
    · norm_num [resolveChain, checkUSDTPayment, unitDivisor, h]
    · simp [checkPaymentStatus, hcg, resolveChain, checkUSDTPayment, h]
    · norm_num [resolveChain, checkUSDCPayment, unitDivisor, h]
    · simp [checkPaymentStatus, hcg, resolveChain, checkUSDCPayment, h]

/-- Witness for C3's amended theorem: concrete instances of BTC failover
to the second endpoint and of LTC single-provider failure. -/
theorem provider_order_shape_witness :
    resolveChain (fun c i => if c = Currency.BTC ∧ i = 1 then some ⟨200000000, 0⟩ else none)
        Currency.BTC "w" 1 =
      .ok (mkSuccessSnap Currency.BTC "w" (((200000000 : ℕ) : ℚ) / 100000000) 1) ∧
    (checkPaymentStatus ltcSecondOnly [] 7 Currency.LTC "w" 1).1 =
      errorSnapshot Currency.LTC "w" :=
  ⟨((provider_order_shape
        (fun c i => if c = Currency.BTC ∧ i = 1 then some ⟨200000000, 0⟩ else none)
        "w" 1).2.1 ⟨200000000, 0⟩ rfl rfl),
   ((provider_order_shape ltcSecondOnly "w" 1).2.2.2 Currency.LTC
      (by decide) |>.2 rfl [] 7 rfl)⟩

/-! ## All providers exhausted (C4) -/

/-- C4.  When every provider call for a currency fails, the resolver
throws (surfaced by `checkPaymentStatus` as an `error` snapshot on a
cache miss), and reprocessing that error snapshot any number of times
leaves the entire state — ledger, status, and attempted callbacks —
unchanged: the CHECK constraint rejects the attempted `status='error'`
write, `updatePaymentStatus` returns before the callback, and the payment
stays `pending`. -/
theorem all_providers_down_no_change (env : ProviderEnv) (c : Currency)
    (a : String) (amt : ℚ) (hfail : ∀ i, env c i = none) :
    (∃ msg, resolveChain env c a amt = Except.error msg) ∧
    (∀ cache now, cacheGet cache (cacheKey c a) now = none →
      checkPaymentStatus env cache now c a amt = (errorSnapshot c a, cache)) ∧
    ∀ (st : SysState) (pid now n : ℕ),
      (fun s => reconcileCheck s pid (errorSnapshot c a) now)^[n] st = st := by
  have herr : ∃ msg, resolveChain env c a amt = Except.error msg := by
    cases c <;>
      simp [resolveChain, checkBitcoinPayment, checkLitecoinPayment,
        checkEthereumPayment, checkBNBPayment, checkSolanaPayment,
        checkUSDTPayment, checkUSDCPayment, hfail 0, hfail 1]
  obtain ⟨msg, hmsg⟩ := herr
  refine ⟨⟨msg, hmsg⟩, ?_, ?_⟩
  · intro cache now hc
    simp [checkPaymentStatus, hc, hmsg]
  · intro st pid now n
    induction n with
    | zero => rfl
    | succ k ih =>
      rw [Function.iterate_succ_apply', ih,
        reconcileCheck_error_snap _ _ _ _ rfl]

/-- Witness for C4: with every provider down, three ticks on the concrete
pending state change nothing. -/
theorem all_providers_down_no_change_witness :
    (∃ msg, resolveChain (fun _ _ => none) Currency.BTC "addr" 1 = Except.error msg) ∧
    (∀ cache now, cacheGet cache (cacheKey Currency.BTC "addr") now = none →
      checkPaymentStatus (fun _ _ => none) cache now Currency.BTC "addr" 1 =
        (errorSnapshot Currency.BTC "addr", cache)) ∧
    ∀ (st : SysState) (pid now n : ℕ),
      (fun s => reconcileCheck s pid (errorSnapshot Currency.BTC "addr") now)^[n] st = st :=
  all_providers_down_no_change (fun _ _ => none) Currency.BTC "addr" 1
    (fun _ => rfl)

/-! ## The reconciliation cache (C9) -/

/-- C9.  `checkPaymentStatus` consults the cache first: a hit within its
TTL is returned as-is, with the cache unchanged and no dependence on the
provider environment; on a miss, a successful (non-error) lookup is
stored under `payment:${currency}:${address}` expiring 30 seconds later,
and an entry put with expiry `e` is visible to `get` exactly while
`now < e`. -/
theorem cache_contract :
    (∀ (env : ProviderEnv) (cache : Cache) (now : ℕ) (c : Currency)
        (a : String) (amt : ℚ) (s : Snapshot),
      cacheGet cache (cacheKey c a) now = some s →
      checkPaymentStatus env cache now c a amt = (s, cache)) ∧
    (∀ (env : ProviderEnv) (cache : Cache) (now : ℕ) (c : Currency)
        (a : String) (amt : ℚ) (snap : Snapshot),
      cacheGet cache (cacheKey c a) now = none →
      resolveChain env c a amt = Except.ok snap →
      checkPaymentStatus env cache now c a amt =
        (snap, cachePut cache (cacheKey c a) snap (now + 30))) ∧
    ∀ (cache : Cache) (key : String) (snap : Snapshot) (expiry t : ℕ),
      cacheGet (cachePut cache key snap expiry) key t =
        if t < expiry then some snap else none := by
  refine ⟨?_, ?_, ?_⟩
  · intro env cache now c a amt s h
    simp [checkPaymentStatus, h]
  · intro env cache now c a amt snap h hok
    simp [checkPaymentStatus, h, hok]
  · intro cache key snap expiry t
    unfold cacheGet cachePut
    by_cases ht : t < expiry
    · rw [List.find?_cons_of_pos _ (by simp [ht])]
      simp [ht]
    · rw [List.find?_cons_of_neg _ (by simp [ht])]
      have hnone :
          (cache.filter fun e => e.1 ≠ key).find?
            (fun e => e.1 = key && decide (t < e.2.2)) = none := by
        rw [List.find?_eq_none]
        intro x hx
        have hxk : ¬ x.1 = key := by
          have := (List.mem_filter.mp hx).2
          simpa using this
        simp [hxk]
      rw [hnone]
      simp [ht]

/-- Witness for C9: a concrete hit, a concrete miss-then-store, and
concrete TTL visibility. -/
theorem cache_contract_witness :
    checkPaymentStatus envHalfCoin [("payment:BTC:addr", errorSnapshot Currency.BTC "addr", 9)]
        5 Currency.BTC "addr" 1 =
      (errorSnapshot Currency.BTC "addr",
        [("payment:BTC:addr", errorSnapshot Currency.BTC "addr", 9)]) ∧
    checkPaymentStatus envHalfCoin [] 5 Currency.BTC "addr" 1 =
      (mkSuccessSnap Currency.BTC "addr" (((50000000 : ℕ) : ℚ) / 100000000) 1,
        cachePut [] "payment:BTC:addr"
          (mkSuccessSnap Currency.BTC "addr" (((50000000 : ℕ) : ℚ) / 100000000) 1) 35) ∧
    cacheGet (cachePut [] "k" (errorSnapshot Currency.BTC "a") 35) "k" 40 =
      (if (40 : ℕ) < 35 then some (errorSnapshot Currency.BTC "a") else none) :=
  ⟨cache_contract.1 envHalfCoin _ 5 Currency.BTC "addr" 1 _ rfl,
   cache_contract.2.1 envHalfCoin [] 5 Currency.BTC "addr" 1 _ rfl rfl,
   cache_contract.2.2 [] "k" (errorSnapshot Currency.BTC "a") 35 40⟩

/-! ## Reconciliation-step lemmas -/

/-- A reconciliation check either leaves the state unchanged, or it found
a pending payment and a `'paid'` snapshot and ran `updatePaymentStatus`. -/
theorem reconcileCheck_cases (st : SysState) (pid : ℕ) (snap : Snapshot)
    (now : ℕ) :
    reconcileCheck st pid snap now = st ∨
    (snap.status = SnapStatus.paid ∧ ∃ p, st.ledger pid = some p ∧
      p.status = PayStatus.pending ∧
      reconcileCheck st pid snap now = updatePaymentStatus st pid p snap now) := by
  cases hs : snap.status
  case pending => exact Or.inl (reconcileCheck_pending_snap _ _ _ _ hs)
  case error => exact Or.inl (reconcileCheck_error_snap _ _ _ _ hs)
  case paid =>
    cases hL : st.ledger pid with
    | none =>
      left
      unfold reconcileCheck
      rw [hL]
    | some p =>
      by_cases hp : p.status = PayStatus.pending
      · right
        refine ⟨rfl, p, rfl, hp, ?_⟩
        unfold reconcileCheck
        rw [hL]
        simp [hp, hs, SnapStatus.str, PayStatus.str]
      · left
        unfold reconcileCheck
        rw [hL]
        simp [hp]

/-- Characterisation of `updatePaymentStatus` for a `'paid'` snapshot: the
row keyed by the payment id is overwritten through `monitorUpdateRow`
(no status re-check), every other row is untouched, and the callback is
attempted exactly when the payment carries a `callback_url`. -/
theorem updatePaymentStatus_paid_char (st : SysState) (pid : ℕ) (p : Payment)
    (snap : Snapshot) (now : ℕ) (hs : snap.status = SnapStatus.paid) :
    updatePaymentStatus st pid p snap now =
      { ledger := fun q =>
          if q = pid then
            (st.ledger q).map (monitorUpdateRow snap PayStatus.paid now)
          else st.ledger q
        notifs :=
          if p.callback_url.isSome then st.notifs ++ [pid] else st.notifs } := by
  unfold updatePaymentStatus monitorWrite
  rw [hs]
  simp [toPayStatus]

/-- The row written at a `paid` transition is `paid` and has `paid_at`
stamped with the write instant. -/
theorem monitorUpdateRow_paid (snap : Snapshot) (now : ℕ) (p : Payment) :
    (monitorUpdateRow snap PayStatus.paid now p).status = PayStatus.paid ∧
    (monitorUpdateRow snap PayStatus.paid now p).paid_at = some now :=
  ⟨rfl, rfl⟩

/-- C5.  Idempotence: running the reconciliation check for the same
payment twice with the same snapshot yields exactly the state produced by
running it once (the second run's write-time re-read finds the payment no
longer `pending`, or finds nothing to do), and a single run appends at
most one callback attempt. -/
theorem reconcile_idempotent (st : SysState) (pid : ℕ) (snap : Snapshot)
    (now : ℕ) :
    reconcileCheck (reconcileCheck st pid snap now) pid snap now =
      reconcileCheck st pid snap now ∧
    (reconcileCheck st pid snap now).notifs.length ≤ st.notifs.length + 1 := by
  rcases reconcileCheck_cases st pid snap now with h | ⟨hs, p, hL, hp, heq⟩
  · rw [h]
    exact ⟨h, Nat.le_succ_of_le le_rfl⟩
  · rw [heq, updatePaymentStatus_paid_char st pid p snap now hs]
    constructor
    · unfold reconcileCheck
      simp [hL, monitorUpdateRow]
    · split <;> simp

/-! ## Terminal-state immutability and the missing compare-and-set (C2) -/

/-- The row `samplePending` after a merchant cancel. -/
def cancelledRow : Payment := { samplePending with status := PayStatus.cancelled }

/-- A one-row ledger holding the cancelled payment at key 0. -/
def cancelledLedger : Ledger := fun n => if n = 0 then some cancelledRow else none

/-- The system state over `cancelledLedger`. -/
def cancelledState : SysState := { ledger := cancelledLedger, notifs := [] }

/-- A resolver snapshot reporting balance 2 against expected amount 1. -/
def paidSnap : Snapshot := mkSuccessSnap Currency.BTC "addr" 2 1

/-- C2 counterexample: the transition write of `updatePaymentStatus`
(`.update(updateData).eq('id', payment.id)`) filters on the payment id
only — applied to a ledger whose payment is already `cancelled` (as
happens when the pre-write read was stale), it overwrites the terminal
status with `paid`.  There is no write-time re-check that the status is
still `pending`. -/
theorem monitor_write_ignores_status_cex :
    cancelledRow.status = PayStatus.cancelled ∧
    paidSnap.status = SnapStatus.paid ∧
    (monitorWrite paidSnap 5 0 cancelledLedger).map
        (fun L => (L 0).map Payment.status) =
      some (some PayStatus.paid) := by
  have h : paidSnap.status = SnapStatus.paid := by
    norm_num [paidSnap, mkSuccessSnap]
  refine ⟨rfl, h, ?_⟩
  simp [monitorWrite, h, toPayStatus, cancelledLedger, monitorUpdateRow]

/-- C2 amended.  In a sequential execution every entry point re-reads the
row before writing, so once a payment's status is terminal, no
reconciliation check, expiry sweep, cancel, or status-update webhook
changes any of its fields; but the transition writes themselves
(`updatePaymentStatus` and the `/webhook/payment` UPDATE) filter on the
payment id only and do not re-check `pending` at write time — only the
merchant cancel route's UPDATE carries `.eq('status','pending')`. -/
theorem terminal_rows_untouched (st : SysState) (now pid : ℕ) (p : Payment)
    (hL : st.ledger pid = some p) (hterm : p.status ≠ PayStatus.pending) :
    (∀ pid0 snap, (reconcileCheck st pid0 snap now).ledger pid = some p) ∧
    ((cleanupExpiredPayments st now).ledger pid = some p) ∧
    (∀ pid0, (cancelPayment st pid0).ledger pid = some p) ∧
    (∀ pid0 s tx amt confs,
      (webhookStatusUpdate st pid0 s tx amt confs now).ledger pid = some p) := by
  refine ⟨?_, ?_, ?_, ?_⟩
  · intro pid0 snap
    rcases reconcileCheck_cases st pid0 snap now with h | ⟨hs, p0, hL0, hp0, heq⟩
    · rw [h, hL]
    · rw [heq, updatePaymentStatus_paid_char st pid0 p0 snap now hs]
      by_cases hq : pid = pid0
      · subst hq
        rw [hL] at hL0
        cases hL0
        exact absurd hp0 hterm
      · simp [hq, hL]
  · simp [cleanupExpiredPayments, hL, sweepRow, hterm]
  · intro pid0
    unfold cancelPayment
    by_cases hq : pid = pid0
    · subst hq
      simp [hL, hterm]
    · simp [hq, hL]
  · intro pid0 s tx amt confs
    unfold webhookStatusUpdate
    by_cases hsp : s = PayStatus.pending
    · simp [hsp, hL]
    · rw [if_neg hsp]
      cases hL0 : st.ledger pid0 with
      | none => exact hL
      | some p1 =>
        by_cases hp1 : p1.status = PayStatus.pending
        · simp only [hp1, ne_eq, not_true_eq_false, if_false]
          by_cases hq : pid = pid0
          · subst hq
            rw [hL] at hL0
            cases hL0
            exact absurd hp1 hterm
          · simp [hq, hL]
        · simp [hp1, hL]

/-- Witness for C2's amended theorem: the cancelled payment's row survives
each kind of operation in the concrete state. -/
theorem terminal_rows_untouched_witness :
    (∀ pid0 snap,
      (reconcileCheck cancelledState pid0 snap 9).ledger 0 = some cancelledRow) ∧
    ((cleanupExpiredPayments cancelledState 9).ledger 0 = some cancelledRow) ∧
    (∀ pid0, (cancelPayment cancelledState pid0).ledger 0 = some cancelledRow) ∧
    (∀ pid0 s tx amt confs,
      (webhookStatusUpdate cancelledState pid0 s tx amt confs 9).ledger 0 =
        some cancelledRow) :=
  terminal_rows_untouched cancelledState 9 0 cancelledRow rfl (by decide)

/-! ## The expiry sweep (C6) -/

/-- C6.  The expiry sweep is a pure, pointwise ledger rewrite (it takes no
provider oracle — no chain call is made) leaving callbacks untouched; a
row becomes `expired` exactly when it was `pending` with `expires_at` in
the past (rows already `expired` stay so), all other rows and fields are
unchanged; and reprocessing a stale `'pending'` snapshot afterwards is a
no-op, so the `expired` outcome stands. -/
theorem expiry_sweep_exact :
    (∀ (st : SysState) (now pid : ℕ),
      (cleanupExpiredPayments st now).ledger pid =
        (st.ledger pid).map (sweepRow now)) ∧
    (∀ (st : SysState) (now : ℕ),
      (cleanupExpiredPayments st now).notifs = st.notifs) ∧
    (∀ (now : ℕ) (p : Payment),
      (p.status = PayStatus.pending ∧ p.expires_at < now →
        sweepRow now p = { p with status := PayStatus.expired }) ∧
      (¬ (p.status = PayStatus.pending ∧ p.expires_at < now) →
        sweepRow now p = p) ∧
      ((sweepRow now p).status = PayStatus.expired ↔
        (p.status = PayStatus.pending ∧ p.expires_at < now) ∨
          p.status = PayStatus.expired)) ∧
    ∀ (st : SysState) (pid : ℕ) (snap : Snapshot) (now : ℕ),
      snap.status = SnapStatus.pending → reconcileCheck st pid snap now = st := by
  refine ⟨fun st now pid => rfl, fun st now => rfl, ?_,
    reconcileCheck_pending_snap⟩
  intro now p
  refine ⟨fun hc => by simp [sweepRow, hc], fun hc => by simp [sweepRow, hc], ?_⟩
  unfold sweepRow
  by_cases hc : p.status = PayStatus.pending ∧ p.expires_at < now
  · rw [if_pos hc]
    simp [hc]
  · rw [if_neg hc]
    constructor
    · exact fun h => Or.inr h
    · rintro (habs | h)
      · exact absurd habs hc
      · exact h

/-- A snapshot literal with status `'pending'`. -/
def stalePendingSnap : Snapshot :=
  { status := SnapStatus.pending
    address := "addr"
    currency := Currency.BTC
    balance := none
    expectedAmount := none
    confirmations := none
    tx_hash := none }

/-- Witness for C6: the concrete pending payment (expiring at 100) is
expired by a sweep at 200, and reprocessing a stale pending snapshot
afterwards changes nothing. -/
theorem expiry_sweep_exact_witness :
    sweepRow 200 samplePending =
      { samplePending with status := PayStatus.expired } ∧
    reconcileCheck (cleanupExpiredPayments sampleState 200) 0
      stalePendingSnap 200 = cleanupExpiredPayments sampleState 200 :=
  ⟨(expiry_sweep_exact.2.2.1 200 samplePending).1 ⟨rfl, by decide⟩,
   expiry_sweep_exact.2.2.2 (cleanupExpiredPayments sampleState 200) 0
     stalePendingSnap 200 rfl⟩

/-! ## Row dynamics of the system's operations (towards C7, C8) -/

/-- The ways a single operation can change one ledger row: unchanged, a
`pending → paid` write stamping `paid_at := now`, a `pending`-guarded
write to a non-`paid` status leaving `paid_at` alone, or a write (the
confirmation webhook) touching neither `status` nor `paid_at`. -/
def rowStep (now : ℕ) (p p' : Payment) : Prop :=
  p' = p ∨
  (p.status = PayStatus.pending ∧ p'.status = PayStatus.paid ∧
    p'.paid_at = some now) ∨
  (p.status = PayStatus.pending ∧ p'.status ≠ PayStatus.paid ∧
    p'.paid_at = p.paid_at) ∨
  (p'.status = p.status ∧ p'.paid_at = p.paid_at)

/-- Every operation either leaves a row's cell unchanged or performs a
`rowStep` on the row stored there. -/
theorem applyOp_rowStep (st : SysState) (now : ℕ) (op : Op) (pid : ℕ) :
    (applyOp st now op).ledger pid = st.ledger pid ∨
    ∃ p p', st.ledger pid = some p ∧ (applyOp st now op).ledger pid = some p' ∧
      rowStep now p p' := by
  cases op with
  | tick pid0 snap =>
    rcases reconcileCheck_cases st pid0 snap now with h | ⟨hs, p0, hL0, hp0, heq⟩
    · left
      simp only [applyOp]
      rw [h]
    · simp only [applyOp]
      rw [heq, updatePaymentStatus_paid_char st pid0 p0 snap now hs]
      by_cases hq : pid = pid0
      · subst hq
        right
        refine ⟨p0, monitorUpdateRow snap PayStatus.paid now p0, hL0, ?_, ?_⟩
        · simp [hL0]
        · exact Or.inr (Or.inl ⟨hp0, rfl, rfl⟩)
      · left
        simp [hq]
  | sweep =>
    simp only [applyOp, cleanupExpiredPayments]
    cases hL : st.ledger pid with
    | none => left; simp [hL]
    | some p =>
      right
      refine ⟨p, sweepRow now p, rfl, by simp, ?_⟩
      unfold sweepRow
      by_cases hc : p.status = PayStatus.pending ∧ p.expires_at < now
      · rw [if_pos hc]
        exact Or.inr (Or.inr (Or.inl ⟨hc.1, by simp, rfl⟩))
      · rw [if_neg hc]
        exact Or.inl rfl
  | cancel pid0 =>
    simp only [applyOp]
    unfold cancelPayment
    by_cases hq : pid = pid0
    · subst hq
      cases hL : st.ledger pid with
      | none => left; simp [hL]
      | some p =>
        right
        by_cases hp : p.status = PayStatus.pending
        · exact ⟨p, { p with status := PayStatus.cancelled }, rfl,
            by simp [hL, hp],
            Or.inr (Or.inr (Or.inl ⟨hp, by simp, rfl⟩))⟩
        · exact ⟨p, p, rfl, by simp [hL, hp], Or.inl rfl⟩
    · left
      simp [hq]
  | webhookStatus pid0 s tx amt confs =>
    simp only [applyOp]
    unfold webhookStatusUpdate
    by_cases hsp : s = PayStatus.pending
    · left; simp [hsp]
    · rw [if_neg hsp]
      cases hL0 : st.ledger pid0 with
      | none => left; rfl
      | some p1 =>
        by_cases hp1 : p1.status = PayStatus.pending
        · simp only [hp1, ne_eq, not_true_eq_false, if_false]
          by_cases hq : pid = pid0
          · subst hq
            right
            refine ⟨p1, webhookRow p1 s tx amt confs now, hL0, by simp, ?_⟩
            by_cases hpd : s = PayStatus.paid
            · exact Or.inr (Or.inl ⟨hp1, by simp [webhookRow, hpd],
                by simp [webhookRow, hpd]⟩)
            · exact Or.inr (Or.inr (Or.inl ⟨hp1, by simp [webhookRow, hpd],
                by simp [webhookRow, hpd]⟩))
          · left
            simp [hq]
        · left
          simp [hp1]
  | webhookConf pid0 confs tx =>
    simp only [applyOp]
    unfold webhookConfirmation
    by_cases hz : confs = 0
    · left; simp [hz]
    · rw [if_neg hz]
      cases hL0 : st.ledger pid0 with
      | none => left; rfl
      | some p1 =>
        by_cases hgt : p1.confirmations < confs
        · by_cases hq : pid = pid0
          · subst hq
            right
            refine ⟨p1, confRow p1 confs tx, hL0, ?_,
              Or.inr (Or.inr (Or.inr ⟨rfl, rfl⟩))⟩
            simp [hgt]
          · left
            simp [hgt, hq]
        · left
          simp [hgt]

/-! ## `paid_at` discipline (C7) -/

/-- Invariant that `paid_at` is set exactly on rows whose status is `paid`.  Rows are
created by the payment-intake route with `status: 'pending'` and no
`paid_at`, so every initial ledger satisfies this. -/
def PaidAtInv (st : SysState) : Prop :=
  ∀ pid p, st.ledger pid = some p →
    (p.paid_at.isSome ↔ p.status = PayStatus.paid)

/-- C7.  Every operation preserves "`paid_at` is set iff `status = paid`";
an already-set `paid_at` is never modified; and an operation that sets a
previously-unset `paid_at` is exactly a `pending → paid` transition of
that row. -/
theorem paidAt_discipline (st : SysState) (now : ℕ) (op : Op)
    (hinv : PaidAtInv st) :
    PaidAtInv (applyOp st now op) ∧
    (∀ pid p p' t, st.ledger pid = some p →
      (applyOp st now op).ledger pid = some p' →
      p.paid_at = some t → p'.paid_at = some t) ∧
    (∀ pid p p', st.ledger pid = some p →
      (applyOp st now op).ledger pid = some p' →
      p.paid_at = none → p'.paid_at ≠ none →
      p.status = PayStatus.pending ∧ p'.status = PayStatus.paid) := by
  refine ⟨?_, ?_, ?_⟩
  · intro pid p' hL'
    rcases applyOp_rowStep st now op pid with h | ⟨p, q, hLp, hLq, hstep⟩
    · rw [h] at hL'
      exact hinv pid p' hL'
    · rw [hLq] at hL'
      cases hL'
      rcases hstep with rfl | ⟨hpend, hstat, hpa⟩ | ⟨hpend, hne, hpa⟩ |
        ⟨hstat, hpa⟩
      · exact hinv _ _ hLp
      · simp [hstat, hpa]
      · have hnp : ¬ p.paid_at.isSome := fun hsome => by
          have hpd := (hinv pid p hLp).mp hsome
          rw [hpend] at hpd
          exact absurd hpd (by decide)
        rw [hpa]
        exact iff_of_false hnp hne
      · rw [hpa, hstat]
        exact hinv pid p hLp
  · intro pid p p' t hLp hL' hpt
    rcases applyOp_rowStep st now op pid with h | ⟨p1, q, hLp1, hLq, hstep⟩
    · rw [h, hLp] at hL'
      cases hL'
      exact hpt
    · rw [hLp] at hLp1
      cases hLp1
      rw [hLq] at hL'
      cases hL'
      rcases hstep with rfl | ⟨hpend, hstat, hpa⟩ | ⟨hpend, hne, hpa⟩ |
        ⟨hstat, hpa⟩
      · exact hpt
      · have hpd := (hinv pid p hLp).mp (by simp [hpt])
        rw [hpend] at hpd
        exact absurd hpd (by decide)
      · rw [hpa]
        exact hpt
      · rw [hpa]
        exact hpt
  · intro pid p p' hLp hL' hnone hsome
    rcases applyOp_rowStep st now op pid with h | ⟨p1, q, hLp1, hLq, hstep⟩
    · rw [h, hLp] at hL'
      cases hL'
      exact absurd hnone hsome
    · rw [hLp] at hLp1
      cases hLp1
      rw [hLq] at hL'
      cases hL'
      rcases hstep with rfl | ⟨hpend, hstat, hpa⟩ | ⟨hpend, hne, hpa⟩ |
        ⟨hstat, hpa⟩
      · exact absurd hnone hsome
      · exact ⟨hpend, hstat⟩
      · rw [hpa] at hsome
        exact absurd hnone hsome
      · rw [hpa] at hsome
        exact absurd hnone hsome

/-- The concrete sample state satisfies the `paid_at` invariant. -/
theorem sampleState_paidAtInv : PaidAtInv sampleState := by
  intro pid p h
  simp only [sampleState, sampleLedger] at h
  split at h
  · cases h
    decide
  · cases h

/-- Witness for C7: the discipline holds across a tick that pays the
concrete pending payment. -/
theorem paidAt_discipline_witness :
    PaidAtInv (applyOp sampleState 7 (Op.tick 0 paidSnap)) ∧
    (∀ pid p p' t, sampleState.ledger pid = some p →
      (applyOp sampleState 7 (Op.tick 0 paidSnap)).ledger pid = some p' →
      p.paid_at = some t → p'.paid_at = some t) ∧
    (∀ pid p p', sampleState.ledger pid = some p →
      (applyOp sampleState 7 (Op.tick 0 paidSnap)).ledger pid = some p' →
      p.paid_at = none → p'.paid_at ≠ none →
      p.status = PayStatus.pending ∧ p'.status = PayStatus.paid) :=
  paidAt_discipline sampleState 7 (Op.tick 0 paidSnap) sampleState_paidAtInv

/-! ## Callbacks only on `pending → paid` (C8) -/

/-- C8.  No operation ever attempts a callback except on a
`pending → paid` transition: either the attempted-callback list is
unchanged, or exactly one id was appended and that payment went from
`pending` to `paid` in this very step.  In particular no callback is ever
attempted for `expired`, `cancelled`, `failed`, or `error` outcomes (an
`error` snapshot's rejected write returns before the callback code). -/
theorem callback_only_pending_to_paid (st : SysState) (now : ℕ) (op : Op) :
    (applyOp st now op).notifs = st.notifs ∨
    ∃ pid p p', (applyOp st now op).notifs = st.notifs ++ [pid] ∧
      st.ledger pid = some p ∧ p.status = PayStatus.pending ∧
      (applyOp st now op).ledger pid = some p' ∧
      p'.status = PayStatus.paid := by
  cases op with
  | tick pid0 snap =>
    rcases reconcileCheck_cases st pid0 snap now with h | ⟨hs, p0, hL0, hp0, heq⟩
    · left
      simp only [applyOp]
      rw [h]
    · simp only [applyOp]
      rw [heq, updatePaymentStatus_paid_char st pid0 p0 snap now hs]
      by_cases hcb : p0.callback_url.isSome
      · right
        exact ⟨pid0, p0, monitorUpdateRow snap PayStatus.paid now p0,
          by simp [hcb], hL0, hp0, by simp [hL0], rfl⟩
      · left
        simp [hcb]
  | sweep => left; rfl
  | cancel pid0 => left; rfl
  | webhookStatus pid0 s tx amt confs =>
    simp only [applyOp]
    unfold webhookStatusUpdate
    by_cases hsp : s = PayStatus.pending
    · left; simp [hsp]
    · rw [if_neg hsp]
      cases hL0 : st.ledger pid0 with
      | none => left; rfl
      | some p1 =>
        by_cases hp1 : p1.status = PayStatus.pending
        · simp only [hp1, ne_eq, not_true_eq_false, if_false]
          by_cases hcb : s = PayStatus.paid ∧ p1.callback_url.isSome
          · right
            exact ⟨pid0, p1, webhookRow p1 s tx amt confs now,
              by simp [hcb], hL0, hp1, by simp,
              by simp [webhookRow, hcb.1]⟩
          · left
            simp [hcb]
        · left
          simp [hp1]
  | webhookConf pid0 confs tx =>
    simp only [applyOp]
    unfold webhookConfirmation
    by_cases hz : confs = 0
    · left; simp [hz]
    · rw [if_neg hz]
      cases hL0 : st.ledger pid0 with
      | none => left; rfl
      | some p1 =>
        by_cases hgt : p1.confirmations < confs
        · left; simp [hgt]
        · left; simp [hgt]

end CryptoPay
